import Mathlib

/-!
Verification of the silver-analytics core of the rift-rewind pipeline.

The definitions below are a shallow embedding of the TypeScript service
(silverAnalyticsService.ts), the SQS handler (computeSilverAnalytics.ts)
and the SQL helper calculate_trend (migrations/002_silver_schema.sql).
JavaScript numbers are modelled by the type EJs (a rational together with
the three special values Infinity, -Infinity and NaN), and nullable
JavaScript numbers by Option EJs (none is null/undefined).  SQL queries
are modelled relationally over explicit lists of rows.
-/

/-- A JavaScript number: a finite rational or one of the IEEE special
values Infinity, -Infinity, NaN.  Floating point granularity is not
modelled; all concrete computations below stay far from any rounding
boundary. -/
inductive EJs where
  | fin (q : ℚ)
  | inf
  | ninf
  | nan
deriving DecidableEq, Repr

/-- JavaScript unary minus. -/
def eneg : EJs → EJs
  | .fin q => .fin (-q)
  | .inf => .ninf
  | .ninf => .inf
  | .nan => .nan

/-- JavaScript addition. -/
def eadd : EJs → EJs → EJs
  | .fin a, .fin b => .fin (a + b)
  | .fin _, .inf => .inf
  | .fin _, .ninf => .ninf
  | .inf, .fin _ => .inf
  | .ninf, .fin _ => .ninf
  | .inf, .inf => .inf
  | .ninf, .ninf => .ninf
  | _, _ => .nan

/-- JavaScript subtraction. -/
def esub (a b : EJs) : EJs := eadd a (eneg b)

/-- JavaScript multiplication. -/
def emul : EJs → EJs → EJs
  | .fin a, .fin b => .fin (a * b)
  | .fin a, .inf => if 0 < a then .inf else if a < 0 then .ninf else .nan
  | .fin a, .ninf => if 0 < a then .ninf else if a < 0 then .inf else .nan
  | .inf, .fin b => if 0 < b then .inf else if b < 0 then .ninf else .nan
  | .ninf, .fin b => if 0 < b then .ninf else if b < 0 then .inf else .nan
  | .inf, .inf => .inf
  | .inf, .ninf => .ninf
  | .ninf, .inf => .ninf
  | .ninf, .ninf => .inf
  | _, _ => .nan

/-- JavaScript division (x / 0 is Infinity, -Infinity or NaN by the sign
of x, as for IEEE doubles with a positive zero divisor). -/
def ediv : EJs → EJs → EJs
  | .fin a, .fin b =>
      if b = 0 then (if 0 < a then .inf else if a < 0 then .ninf else .nan)
      else .fin (a / b)
  | .inf, .fin b => if b < 0 then .ninf else .inf
  | .ninf, .fin b => if b < 0 then .inf else .ninf
  | .fin _, .inf => .fin 0
  | .fin _, .ninf => .fin 0
  | _, _ => .nan

/-- Comparison used by emin and emax on non-NaN values. -/
def ele : EJs → EJs → Bool
  | .fin a, .fin b => a ≤ b
  | .ninf, _ => true
  | _, .inf => true
  | _, _ => false

/-- JavaScript Math.min (NaN propagates). -/
def emin (a b : EJs) : EJs :=
  match a, b with
  | .nan, _ => .nan
  | _, .nan => .nan
  | x, y => if ele x y then x else y

/-- JavaScript Math.max (NaN propagates). -/
def emax (a b : EJs) : EJs :=
  match a, b with
  | .nan, _ => .nan
  | _, .nan => .nan
  | x, y => if ele x y then y else x

/-- JavaScript Math.round: round half toward positive infinity. -/
def eround : EJs → EJs
  | .fin q => .fin ((⌊q + 1/2⌋ : ℤ) : ℚ)
  | .inf => .inf
  | .ninf => .ninf
  | .nan => .nan

/-- A nullable JavaScript number: none is null (or undefined). -/
abbrev JsVal := Option EJs

/-- JavaScript truthiness of a nullable number: null, 0 and NaN are
falsy; every other number (including Infinity) is truthy. -/
def truthy : JsVal → Bool
  | none => false
  | some (.fin q) => q ≠ 0
  | some .nan => false
  | some _ => true

/-- The JavaScript idiom v || null: keep v when truthy, else null. -/
def orNull (v : JsVal) : JsVal := if truthy v then v else none

/-- Coercion of a JsVal to a number where the code has already
established it is a number (never applied to null on modelled paths). -/
def toE (v : JsVal) : EJs := v.getD (.fin 0)

/-! ## Score Engine (silverAnalyticsService.ts) -/

/-- The open challenge-metrics map: only the keys the service reads are
modelled; a missing key is none (undefined in JavaScript). -/
structure Challenges where
  earlyLaningPhaseGoldExpAdvantage : JsVal
  bountyGold : JsVal
  takedownsAfterGainingLevelAdvantage : JsVal
  controlWardTimeCoverageInRiver : JsVal
  stealthWardsPlaced : JsVal
  wardsGuarded : JsVal
  visionScoreAdvantageLaneOpponent : JsVal

/-- A challenges object with every key absent (the empty map). -/
def emptyChallenges : Challenges :=
  { earlyLaningPhaseGoldExpAdvantage := none
    bountyGold := none
    takedownsAfterGainingLevelAdvantage := none
    controlWardTimeCoverageInRiver := none
    stealthWardsPlaced := none
    wardsGuarded := none
    visionScoreAdvantageLaneOpponent := none }

/-- Economy bundle of ParticipantAnalyticsData. -/
structure EconomyMetrics where
  gold_per_minute : JsVal
  cs_per_minute : JsVal
  damage_per_minute : JsVal
  gold_advantage_at_10 : JsVal
  gold_advantage_at_15 : JsVal
  cs_advantage_at_10 : JsVal
  xp_advantage_at_15 : JsVal
  early_laning_gold_exp_advantage : JsVal
  bounty_gold : JsVal

/-- computeEconomyMetrics of silverAnalyticsService.ts.  The per-minute
rates divide by durationMinutes with JavaScript semantics (division by
zero gives Infinity or NaN, it does not throw); the two challenge-sourced
fields use the idiom challenges?.key || null. -/
def computeEconomyMetrics (goldEarned csTotal totalDamage : ℚ)
    (durationMinutes : ℚ) (challenges : Challenges) : EconomyMetrics :=
  { gold_per_minute := some (ediv (.fin goldEarned) (.fin durationMinutes))
    cs_per_minute := some (ediv (.fin csTotal) (.fin durationMinutes))
    damage_per_minute := some (ediv (.fin totalDamage) (.fin durationMinutes))
    gold_advantage_at_10 := none
    gold_advantage_at_15 := none
    cs_advantage_at_10 := none
    xp_advantage_at_15 := none
    early_laning_gold_exp_advantage :=
      orNull challenges.earlyLaningPhaseGoldExpAdvantage
    bounty_gold := orNull challenges.bountyGold }

/-- Map-control bundle of ParticipantAnalyticsData. -/
structure MapControlMetrics where
  vision_score_per_minute : JsVal
  control_ward_uptime_percent : JsVal
  stealth_wards_placed : JsVal
  wards_cleared : JsVal
  vision_advantage_vs_opponent : JsVal
  roam_efficiency_score : JsVal

/-- computeMapControlMetrics of silverAnalyticsService.ts. -/
def computeMapControlMetrics (visionScore durationMinutes : ℚ)
    (challenges : Challenges) : MapControlMetrics :=
  { vision_score_per_minute :=
      some (ediv (.fin visionScore) (.fin durationMinutes))
    control_ward_uptime_percent :=
      if truthy challenges.controlWardTimeCoverageInRiver then
        some (emul (toE challenges.controlWardTimeCoverageInRiver) (.fin 100))
      else none
    stealth_wards_placed := orNull challenges.stealthWardsPlaced
    wards_cleared := orNull challenges.wardsGuarded
    vision_advantage_vs_opponent :=
      orNull challenges.visionScoreAdvantageLaneOpponent
    roam_efficiency_score := none }

/-- Error bundle of ParticipantAnalyticsData. -/
structure ErrorMetrics where
  deaths_per_minute : JsVal
  unforced_death_rate : JsVal
  kill_participation : JsVal
  survival_time_percent : JsVal
  tempo_loss_on_death_avg : JsVal
  wave_management_score : JsVal

/-- computeErrorMetrics of silverAnalyticsService.ts.  teamKills stands
for the result of the team-kills SUM query (coerced with || 0). -/
def computeErrorMetrics (teamKills : ℚ)
    (kills deaths assists durationMinutes : ℚ) : ErrorMetrics :=
  { deaths_per_minute := some (ediv (.fin deaths) (.fin durationMinutes))
    unforced_death_rate := none
    kill_participation :=
      if 0 < teamKills then some (.fin ((kills + assists) / teamKills * 100))
      else none
    survival_time_percent := none
    tempo_loss_on_death_avg := none
    wave_management_score := none }

/-! ## Timeline rows and the objectives bundle -/

/-- One row of match_timeline_event, restricted to the columns the
service queries. -/
structure TimelineEvent where
  event_type : String
  monster_type : Option String
  building_type : Option String
  timestamp_ms : ℤ
  killer_participant_id : ℤ
  assisting_participant_ids : List ℤ
deriving DecidableEq, Repr

/-- One row of match_team, SELECTed columns only. -/
structure MatchTeam where
  team_id : ℤ
  barons : Option ℤ
  dragons : Option ℤ
  towers : Option ℤ
deriving DecidableEq, Repr

/-- One row of match_participant, restricted to the identifier columns
used by the team lookups. -/
structure MatchParticipant where
  participant_id : ℤ
  team_id : ℤ
deriving DecidableEq, Repr

/-- Predicate of the baron-participation COUNT query. -/
def isBaronKill (e : TimelineEvent) : Bool :=
  e.event_type == "ELITE_MONSTER_KILL" && e.monster_type == some "BARON_NASHOR"

/-- Predicate of the dragon-participation COUNT query. -/
def isDragonKill (e : TimelineEvent) : Bool :=
  e.event_type == "ELITE_MONSTER_KILL" && e.monster_type == some "DRAGON"

/-- Predicate of the tower COUNT query and of the first-tower query. -/
def isTowerKill (e : TimelineEvent) : Bool :=
  e.event_type == "BUILDING_KILL" && e.building_type == some "TOWER_BUILDING"

/-- Predicate of the first-blood query. -/
def isChampionKill (e : TimelineEvent) : Bool :=
  e.event_type == "CHAMPION_KILL"

/-- COUNT(*) over match_timeline_event rows of one match where the
participant landed the event or is listed among the assists. -/
def countParticipation (events : List TimelineEvent)
    (p : TimelineEvent → Bool) (pid : ℤ) : ℕ :=
  (events.filter (fun e =>
    p e && (e.killer_participant_id == pid
      || e.assisting_participant_ids.contains pid))).length

/-- The team-objectives query: COALESCE(barons,0)+COALESCE(dragons,0)+
COALESCE(towers,0) of the match_team row of the team, with the
JavaScript coercion Number(records?.[0]?.[0]?.longValue || 0) when the
row is absent. -/
def teamTotalObjectives (teams : List MatchTeam) (teamId : ℤ) : ℤ :=
  match teams.find? (fun t => t.team_id == teamId) with
  | some t => t.barons.getD 0 + t.dragons.getD 0 + t.towers.getD 0
  | none => 0

/-- Objectives bundle of ParticipantAnalyticsData. -/
structure ObjectivesMetrics where
  objective_participation_rate : JsVal
  takedowns_after_level_advantage : JsVal
  baron_participation : ℕ
  dragon_participation : ℕ
  tower_participation : ℕ
  first_turret_contribution : JsVal
  macro_score : JsVal

/-- computeObjectivesMetrics of silverAnalyticsService.ts: three COUNT
queries over the timeline events, then the participation rate, which is
computed only when the participant has at least one own takedown and the
team total is positive. -/
def computeObjectivesMetrics (events : List TimelineEvent)
    (teams : List MatchTeam) (inGameParticipantId teamId : ℤ)
    (challenges : Challenges) : ObjectivesMetrics :=
  let baronParticipation := countParticipation events isBaronKill inGameParticipantId
  let dragonParticipation := countParticipation events isDragonKill inGameParticipantId
  let towerParticipation := countParticipation events isTowerKill inGameParticipantId
  let totalParticipation := baronParticipation + dragonParticipation + towerParticipation
  let objectiveParticipationRate : JsVal :=
    if 0 < totalParticipation then
      (let teamTotal := teamTotalObjectives teams teamId
       if 0 < teamTotal then
         some (.fin ((totalParticipation : ℚ) / (teamTotal : ℚ) * 100))
       else none)
    else none
  { objective_participation_rate := objectiveParticipationRate
    takedowns_after_level_advantage :=
      orNull challenges.takedownsAfterGainingLevelAdvantage
    baron_participation := baronParticipation
    dragon_participation := dragonParticipation
    tower_participation := towerParticipation
    first_turret_contribution := none
    macro_score := none }

/-! ## Normalization and the overall score -/

/-- Rounding to one decimal as the service does it:
Math.round(x * 10) / 10. -/
def roundTo1 (x : EJs) : EJs := ediv (eround (emul x (.fin 10))) (.fin 10)

/-- normalizeEconomyScore: null when gold_per_minute is falsy (null, 0 or
NaN), otherwise the linear map of gold/min clamped between floor 300 and
ceiling 600, rounded to one decimal. -/
def normalizeEconomyScore (metrics : EconomyMetrics) : JsVal :=
  if truthy metrics.gold_per_minute then
    let g := toE metrics.gold_per_minute
    let gpmScore :=
      emin (.fin 100) (emax (.fin 0)
        (emul (ediv (esub g (.fin 300)) (.fin 300)) (.fin 100)))
    some (roundTo1 gpmScore)
  else none

/-- normalizeObjectivesScore: null exactly when the participation rate is
null (a strict === null test), otherwise the rate rounded to one decimal
with no clamping. -/
def normalizeObjectivesScore (metrics : ObjectivesMetrics) : JsVal :=
  match metrics.objective_participation_rate with
  | none => none
  | some r => some (roundTo1 r)

/-- normalizeMapControlScore: null when vision_score_per_minute is falsy,
otherwise (vspm / 2) * 100 clamped to 0..100 and rounded. -/
def normalizeMapControlScore (metrics : MapControlMetrics) : JsVal :=
  if truthy metrics.vision_score_per_minute then
    let v := toE metrics.vision_score_per_minute
    let vspmScore :=
      emin (.fin 100) (emax (.fin 0) (emul (ediv v (.fin 2)) (.fin 100)))
    some (roundTo1 vspmScore)
  else none

/-- normalizeErrorScore: null exactly when deaths_per_minute is null (a
strict === null test), otherwise (1 - dpm / 0.3) * 100 clamped and
rounded. -/
def normalizeErrorScore (metrics : ErrorMetrics) : JsVal :=
  match metrics.deaths_per_minute with
  | none => none
  | some d =>
      let deathScore :=
        emin (.fin 100) (emax (.fin 0)
          (emul (esub (.fin 1) (ediv d (.fin (3/10)))) (.fin 100)))
      some (roundTo1 deathScore)

/-- The four category scores handed to computeOverallScore. -/
structure CategoryScores where
  economyScore : JsVal
  objectivesScore : JsVal
  mapControlScore : JsVal
  errorRateScore : JsVal

/-- computeOverallScore: collect the non-null scores with their fixed
weights (0.30, 0.25, 0.20, 0.25), return null when all are null, else
the weighted sum divided by the total collected weight, rounded to one
decimal. -/
def computeOverallScore (scores : CategoryScores) : JsVal :=
  let pairs : List (EJs × ℚ) :=
    (match scores.economyScore with | some s => [(s, 3/10)] | none => []) ++
    (match scores.objectivesScore with | some s => [(s, 1/4)] | none => []) ++
    (match scores.mapControlScore with | some s => [(s, 1/5)] | none => []) ++
    (match scores.errorRateScore with | some s => [(s, 1/4)] | none => [])
  if pairs.isEmpty then none
  else
    let totalWeight : ℚ := (pairs.map Prod.snd).sum
    let weightedSum : EJs :=
      pairs.foldl (fun acc p => eadd acc (emul p.1 (.fin p.2))) (.fin 0)
    some (roundTo1 (ediv weightedSum (.fin totalWeight)))

/-- Written from the words of the spec, for comparison with
computeOverallScore: the weighted average with weights 0.30, 0.25, 0.20,
0.25, null categories excluded and the remaining weights renormalized;
null only if all four are null.  No rounding is mentioned by the spec. -/
def claimWeightedOverall (e o m r : Option ℚ) : Option ℚ :=
  let pairs : List (ℚ × ℚ) :=
    (match e with | some s => [(s, 3/10)] | none => []) ++
    (match o with | some s => [(s, 1/4)] | none => []) ++
    (match m with | some s => [(s, 1/5)] | none => []) ++
    (match r with | some s => [(s, 1/4)] | none => [])
  if pairs.isEmpty then none
  else some ((pairs.map (fun p => p.1 * p.2)).sum / (pairs.map Prod.snd).sum)

/-- Lift an optional rational to an optional JavaScript number. -/
def liftQ (v : Option ℚ) : JsVal := v.map .fin

/-- Rounding a rational to one decimal, on the rational side. -/
def qround1 (q : ℚ) : ℚ := ((⌊q * 10 + 1/2⌋ : ℤ) : ℚ) / 10

/-! ## Timeline Extractor (computeTimelineAnalytics) -/

/-- The earliest event satisfying p: the relational meaning of
ORDER BY timestamp_ms ASC LIMIT 1 over the filtered rows (on timestamp
ties the first row in list order is kept; SQL leaves the tie order
unspecified). -/
def earliest (p : TimelineEvent → Bool) (events : List TimelineEvent) :
    Option TimelineEvent :=
  (events.filter p).foldl (fun acc e =>
    match acc with
    | none => some e
    | some b => if e.timestamp_ms < b.timestamp_ms then some e else some b) none

/-- The team lookup SELECT team_id FROM match_participant WHERE
participant_id = pid, followed by the JavaScript guard
records?.[0]?.[0]?.longValue ? Number(...) : null, under which a team id
of 0 (falsy) also yields null. -/
def lookupTeamId (participants : List MatchParticipant) (pid : ℤ) : Option ℤ :=
  match participants.find? (fun mp => mp.participant_id == pid) with
  | some mp => if mp.team_id = 0 then none else some mp.team_id
  | none => none

/-- The MatchTimelineAnalytics row assembled by computeTimelineAnalytics. -/
structure TimelineAnalyticsData where
  first_blood_timestamp_ms : Option ℤ
  first_blood_team_id : Option ℤ
  first_blood_killer_participant_id : Option ℤ
  first_tower_timestamp_ms : Option ℤ
  first_tower_team_id : Option ℤ
  first_dragon_timestamp_ms : Option ℤ
  first_dragon_team_id : Option ℤ
  first_baron_timestamp_ms : Option ℤ
  first_baron_team_id : Option ℤ
  avg_players_near_dragon_kills : JsVal
  avg_players_near_baron_kills : JsVal
  objective_steals_count : JsVal
  gold_swing_events : JsVal
  ace_timestamps : JsVal
deriving DecidableEq, Repr

/-- computeTimelineAnalytics of silverAnalyticsService.ts: first blood
from the earliest CHAMPION_KILL, first tower from the earliest
BUILDING_KILL of a TOWER_BUILDING, each with a participant-team lookup;
the first-dragon and first-baron fields are hard-coded to null (the
source marks them TODO). -/
def computeTimelineAnalytics (events : List TimelineEvent)
    (participants : List MatchParticipant) : TimelineAnalyticsData :=
  let firstBlood := earliest isChampionKill events
  let firstTower := earliest isTowerKill events
  { first_blood_timestamp_ms := firstBlood.map (fun e => e.timestamp_ms)
    first_blood_team_id :=
      match firstBlood with
      | some e => lookupTeamId participants e.killer_participant_id
      | none => none
    first_blood_killer_participant_id :=
      firstBlood.map (fun e => e.killer_participant_id)
    first_tower_timestamp_ms := firstTower.map (fun e => e.timestamp_ms)
    first_tower_team_id :=
      match firstTower with
      | some e => lookupTeamId participants e.killer_participant_id
      | none => none
    first_dragon_timestamp_ms := none
    first_dragon_team_id := none
    first_baron_timestamp_ms := none
    first_baron_team_id := none
    avg_players_near_dragon_kills := none
    avg_players_near_baron_kills := none
    objective_steals_count := none
    gold_swing_events := none
    ace_timestamps := none }

/-! ## Rolling Aggregator (computeRollingAnalytics) -/

/-- The ParticipantAnalytics columns averaged by the rolling query. -/
structure ScoreRow where
  economy_score : Option ℚ
  objectives_score : Option ℚ
  map_control_score : Option ℚ
  error_rate_score : Option ℚ
  overall_performance_score : Option ℚ
deriving DecidableEq, Repr

/-- One of the player's match_participant rows joined with its match:
the columns consulted by the two rolling queries, together with the
ParticipantAnalytics row when one exists (the averages query is an inner
join on match_participant_analytics). -/
structure PlayerMatchRow where
  match_id : String
  started_at : ℤ
  queue_id : ℤ
  champion_id : ℤ
  team_position : String
  win : Bool
  analytics : Option ScoreRow
deriving DecidableEq, Repr

/-- Whether the optional queue or champion filter contributes a WHERE
clause: the TypeScript test if (queueId) is falsy for undefined and 0. -/
def filterActiveInt : Option ℤ → Bool
  | none => false
  | some q => q != 0

/-- Whether the optional position filter contributes a WHERE clause: the
empty string is falsy. -/
def filterActiveStr : Option String → Bool
  | none => false
  | some s => s != ""

/-- The WHERE clause shared by both rolling queries, applied to one of
the player's rows. -/
def rowQualifies (queueId championId : Option ℤ)
    (teamPosition : Option String) (r : PlayerMatchRow) : Bool :=
  (if filterActiveInt queueId then r.queue_id == queueId.getD 0 else true) &&
  (if filterActiveInt championId then r.champion_id == championId.getD 0 else true) &&
  (if filterActiveStr teamPosition then r.team_position == teamPosition.getD "" else true)

/-- Insertion into a list sorted by started_at descending. -/
def insertByStartDesc (r : PlayerMatchRow) :
    List PlayerMatchRow → List PlayerMatchRow
  | [] => [r]
  | x :: xs =>
      if x.started_at < r.started_at then r :: x :: xs
      else x :: insertByStartDesc r xs

/-- ORDER BY m.started_at DESC as a sort on the row list. -/
def sortByStartDesc (rows : List PlayerMatchRow) : List PlayerMatchRow :=
  rows.foldr insertByStartDesc []

/-- SQL AVG over a column: the mean of the non-null values, NULL when
every value is null. -/
def avgOpt (vs : List ℚ) : Option ℚ :=
  if vs.isEmpty then none else some (vs.sum / (vs.length : ℚ))

/-- The JavaScript coercion avgRow[i].doubleValue || null applied to the
query results: a missing or zero double becomes null. -/
def orNullZeroQ : Option ℚ → Option ℚ
  | none => none
  | some q => if q = 0 then none else some q

/-- The same coercion for the optional integer filters echoed into the
stored row (championId || null, queueId || null). -/
def orNullZeroZ : Option ℤ → Option ℤ
  | none => none
  | some z => if z = 0 then none else some z

/-- teamPosition || null: the empty string becomes null. -/
def orNullEmptyS : Option String → Option String
  | none => none
  | some s => if s = "" then none else some s

/-- The RollingAnalytics row assembled by computeRollingAnalytics. -/
structure RollingAnalyticsData where
  player_profile_id : String
  match_count : ℕ
  champion_id : Option ℤ
  queue_id : Option ℤ
  team_position : Option String
  avg_economy_score : Option ℚ
  avg_objectives_score : Option ℚ
  avg_map_control_score : Option ℚ
  avg_error_rate_score : Option ℚ
  avg_overall_performance : Option ℚ
  win_rate : Option ℚ
  total_matches : ℕ
  economy_trend : Option String
  objectives_trend : Option String
  map_control_trend : Option String
  error_rate_trend : Option String
  match_ids : List String
deriving DecidableEq, Repr

/-- A PostgreSQL error class surfaced through the RDS Data API to the
caller of executeStatement. -/
inductive SqlError where
  | missingFromEntry (tableAlias : String)
  | ungroupedColumn (tableAlias column : String)
deriving DecidableEq, Repr

/-- The static shape of one of the rolling SELECT statements: whether
its SELECT list aggregates without a GROUP BY, which table aliases its
FROM clause binds, and which alias-qualified columns its WHERE, ORDER BY
and GROUP BY clauses reference. -/
structure SqlSelect where
  aggregate : Bool
  fromAliases : List String
  whereRefs : List (String × String)
  orderByRefs : List (String × String)
  groupByRefs : List (String × String)
deriving DecidableEq, Repr

/-- The alias-qualified columns of the WHERE clause both rolling queries
share, as built by the filters array of computeRollingAnalytics:
mp.player_profile_id always, m.queue_id when a (truthy) queue filter is
passed, mp.champion_id and mp.team_position for the other filters. -/
def whereRefsFor (queueId championId : Option ℤ)
    (teamPosition : Option String) : List (String × String) :=
  [("mp", "player_profile_id")] ++
  (if filterActiveInt queueId then [("m", "queue_id")] else []) ++
  (if filterActiveInt championId then [("mp", "champion_id")] else []) ++
  (if filterActiveStr teamPosition then [("mp", "team_position")] else [])

/-- The match-ids statement: SELECT m.id FROM match m JOIN
match_participant mp ... WHERE ... ORDER BY m.started_at DESC LIMIT N.
Not an aggregate; binds both aliases m and mp. -/
def matchIdsQueryFor (queueId championId : Option ℤ)
    (teamPosition : Option String) : SqlSelect :=
  { aggregate := false
    fromAliases := ["m", "mp"]
    whereRefs := whereRefsFor queueId championId teamPosition
    orderByRefs := [("m", "started_at")]
    groupByRefs := [] }

/-- The averages statement: an aggregate SELECT (AVG/SUM/COUNT) FROM
match_participant_analytics mpa JOIN match_participant mp ... WHERE the
same clause ... ORDER BY mp.match_id, with no GROUP BY.  The FROM clause
binds only mpa and mp — there is no match m join. -/
def avgQueryFor (queueId championId : Option ℤ)
    (teamPosition : Option String) : SqlSelect :=
  { aggregate := true
    fromAliases := ["mpa", "mp"]
    whereRefs := whereRefsFor queueId championId teamPosition
    orderByRefs := [("mp", "match_id")]
    groupByRefs := [] }

/-- The two PostgreSQL analysis checks that decide these statements:
every alias-qualified column must resolve against a FROM-clause alias
(error 42P01, missing FROM-clause entry), and in an aggregate query
without matching GROUP BY entries an ORDER BY column must be grouped
(error 42803).  Column resolution happens first. -/
def validateStatement (s : SqlSelect) : Option SqlError :=
  match (s.whereRefs ++ s.orderByRefs ++ s.groupByRefs).find?
      (fun r => !(s.fromAliases.contains r.1)) with
  | some r => some (.missingFromEntry r.1)
  | none =>
      if s.aggregate then
        match s.orderByRefs.find? (fun r => !(s.groupByRefs.contains r)) with
        | some r => some (.ungroupedColumn r.1 r.2)
        | none => none
      else none

/-- computeRollingAnalytics of silverAnalyticsService.ts.  The first
query (valid SQL) selects the ids of the matchCount most recent
qualifying matches; the function returns without writing when it finds
none.  The averages statement is then executed, but it never validates:
it is an aggregate SELECT with the ungrouped ORDER BY mp.match_id, and
whenever a queue filter is passed its WHERE clause references m.queue_id
although no match m is joined — so executeStatement rejects it, the
function throws, and no RollingAnalyticsData is ever stored.  The
construction in the final branch mirrors the source's rollingData
assembly (window-free averages over every qualifying analytics row,
win rate over all joined rows, null trend columns marked TODO); it is
unreachable, as avg_query_never_validates proves. -/
def computeRollingAnalytics (rows : List PlayerMatchRow)
    (playerProfileId : String) (matchCount : ℕ)
    (queueId championId : Option ℤ) (teamPosition : Option String) :
    Except SqlError (Option RollingAnalyticsData) :=
  match validateStatement (matchIdsQueryFor queueId championId teamPosition) with
  | some e => .error e
  | none =>
    let qualifying := rows.filter (rowQualifies queueId championId teamPosition)
    let matchIds := ((sortByStartDesc qualifying).take matchCount).map
      (fun r => r.match_id)
    if matchIds.isEmpty then .ok none
    else
      match validateStatement (avgQueryFor queueId championId teamPosition) with
      | some e => .error e
      | none =>
        let analyticsRows := qualifying.filterMap
          (fun r => r.analytics.map (fun a => (a, r.win)))
        let winRate : Option ℚ :=
          if analyticsRows.isEmpty then none
          else some ((((analyticsRows.filter (fun p => p.2)).length : ℚ) /
            (analyticsRows.length : ℚ)) * 100)
        .ok (some
          { player_profile_id := playerProfileId
            match_count := matchCount
            champion_id := orNullZeroZ championId
            queue_id := orNullZeroZ queueId
            team_position := orNullEmptyS teamPosition
            avg_economy_score :=
              orNullZeroQ (avgOpt (analyticsRows.filterMap (fun p => p.1.economy_score)))
            avg_objectives_score :=
              orNullZeroQ (avgOpt (analyticsRows.filterMap (fun p => p.1.objectives_score)))
            avg_map_control_score :=
              orNullZeroQ (avgOpt (analyticsRows.filterMap (fun p => p.1.map_control_score)))
            avg_error_rate_score :=
              orNullZeroQ (avgOpt (analyticsRows.filterMap (fun p => p.1.error_rate_score)))
            avg_overall_performance :=
              orNullZeroQ (avgOpt (analyticsRows.filterMap (fun p => p.1.overall_performance_score)))
            win_rate := orNullZeroQ winRate
            total_matches := analyticsRows.length
            economy_trend := none
            objectives_trend := none
            map_control_trend := none
            error_rate_trend := none
            match_ids := matchIds })

/-- The SQL function calculate_trend of 002_silver_schema.sql (the
migration gives threshold the default 5.0). -/
def calculate_trend (first_half_avg second_half_avg threshold : ℚ) : String :=
  if threshold < second_half_avg - first_half_avg then "improving"
  else if threshold < first_half_avg - second_half_avg then "declining"
  else "stable"

/-! ## Ingestion Trigger and Dedup Guard (computeSilverAnalytics.ts) -/

/-- The parsed body of one SQS message (MatchIngestedEvent), restricted
to the fields the handler reads. -/
structure MatchIngestedEvent where
  matchId : String
  queueId : ℤ
deriving DecidableEq, Repr

/-- One SQS record: its delivery-layer message id and its parsed body. -/
structure SQSRecord where
  messageId : String
  body : MatchIngestedEvent
deriving DecidableEq, Repr

/-- The service invocations the handler can make for one message, in
order of appearance. -/
inductive ServiceCall where
  | dedupCheck (matchId : String)
  | participantAnalytics (matchId : String)
  | timelineAnalytics (matchId : String)
  | rollingAnalytics (matchId : String)
deriving DecidableEq, Repr

/-- The allow-listed ranked queue categories of the handler. -/
def RANKED_QUEUE_IDS : List ℤ := [420, 440]

/-- Modelled from the spec: checkIfAnalyticsExist, the dedup check the
handler calls on SilverAnalyticsService, is absent from the sources
here; the spec describes it as a check against existing
ParticipantAnalytics for the match, so it is modelled as membership of
the match id in the set of matches whose ParticipantAnalytics rows
exist. -/
def checkIfAnalyticsExist (computedMatches : List String)
    (matchId : String) : Bool :=
  computedMatches.contains matchId

/-- Processing of one SQS record by the handler: the emitted service
calls and whether the record is reported to the delivery layer as a
batch item failure.  Non-ranked queue ids skip before the dedup check;
an existing-analytics match skips after it; otherwise the three
computation stages run.  The service calls themselves are modelled as
succeeding, so the catch branch that reports a failure is not taken. -/
def processRecord (computedMatches : List String) (r : SQSRecord) :
    List ServiceCall × Bool :=
  if r.body.queueId ∈ RANKED_QUEUE_IDS then
    if checkIfAnalyticsExist computedMatches r.body.matchId then
      ([.dedupCheck r.body.matchId], false)
    else
      ([.dedupCheck r.body.matchId,
        .participantAnalytics r.body.matchId,
        .timelineAnalytics r.body.matchId,
        .rollingAnalytics r.body.matchId], false)
  else ([], false)

/-- The handler loop over the batch: concatenated service calls and the
list of message ids reported in batchItemFailures. -/
def handler (computedMatches : List String) (records : List SQSRecord) :
    List ServiceCall × List String :=
  records.foldl (fun acc r =>
    let step := processRecord computedMatches r
    (acc.1 ++ step.1, acc.2 ++ (if step.2 then [r.messageId] else []))) ([], [])

/-! ## Specification-side helpers and concrete inputs -/

/-- The range predicate of the spec: a composite score is null or lies in
the closed interval 0..100 (as a finite number). -/
def scoreInRange (v : JsVal) : Prop :=
  v = none ∨ ∃ q : ℚ, v = some (.fin q) ∧ 0 ≤ q ∧ q ≤ 100

/-- The rows the first rolling query selects: the matchCount most recent
qualifying rows. -/
def selectedRows (rows : List PlayerMatchRow) (matchCount : ℕ)
    (queueId championId : Option ℤ) (teamPosition : Option String) :
    List PlayerMatchRow :=
  (sortByStartDesc (rows.filter
    (rowQualifies queueId championId teamPosition))).take matchCount

/-- A dragon kill at 6 minutes by participant 3 (exercises the
first-dragon path of the Timeline Extractor). -/
def dragonKillEvent : TimelineEvent :=
  ⟨"ELITE_MONSTER_KILL", some "DRAGON", none, 360000, 3, []⟩

/-- Three tower kills by participant 1 (own takedowns exceeding the
recorded team total). -/
def threeTowerKills : List TimelineEvent :=
  [⟨"BUILDING_KILL", none, some "TOWER_BUILDING", 100, 1, []⟩,
   ⟨"BUILDING_KILL", none, some "TOWER_BUILDING", 200, 1, []⟩,
   ⟨"BUILDING_KILL", none, some "TOWER_BUILDING", 300, 1, []⟩]

/-- An older match row of a player: a loss with all factor scores 50. -/
def cexRowOld : PlayerMatchRow :=
  ⟨"m1", 1, 420, 1, "TOP", false, some ⟨some 50, some 50, some 50, some 50, some 50⟩⟩

/-- A newer match row of the same player: a win with all factor scores
100. -/
def cexRowNew : PlayerMatchRow :=
  ⟨"m2", 2, 420, 1, "TOP", true, some ⟨some 100, some 100, some 100, some 100, some 100⟩⟩

/-- Two-match history whose halves differ by 20 score points (older
half mean 50, newer half mean 70). -/
def trendDemoRows : List PlayerMatchRow :=
  [⟨"t1", 1, 420, 1, "TOP", false, some ⟨some 50, some 50, some 50, some 50, some 50⟩⟩,
   ⟨"t2", 2, 420, 1, "TOP", true, some ⟨some 70, some 70, some 70, some 70, some 70⟩⟩]

/-! ## Basic facts about the JavaScript number model -/

theorem esub_fin (a b : ℚ) : esub (.fin a) (.fin b) = .fin (a - b) := by
  simp [esub, eadd, eneg, sub_eq_add_neg]

theorem ediv_fin (a b : ℚ) (hb : b ≠ 0) :
    ediv (.fin a) (.fin b) = .fin (a / b) := by
  simp [ediv, hb]

/-! ## Claim C10: falsy zero rates give null composite scores -/

/-- C10: a participant whose gold_per_minute is present but 0 (zero gold
with positive duration) gets a null economy score, because the guard
tests JavaScript falsiness; likewise the map-control score for a
vision-score rate of exactly 0. -/
theorem zero_rate_scores_null (m : EconomyMetrics) (mc : MapControlMetrics)
    (csTotal totalDamage durationMinutes : ℚ) (challenges : Challenges)
    (hdur : 0 < durationMinutes)
    (hm : m.gold_per_minute = some (.fin 0))
    (hmc : mc.vision_score_per_minute = some (.fin 0)) :
    normalizeEconomyScore
      (computeEconomyMetrics 0 csTotal totalDamage durationMinutes challenges) = none ∧
    normalizeMapControlScore
      (computeMapControlMetrics 0 durationMinutes challenges) = none ∧
    normalizeEconomyScore m = none ∧
    normalizeMapControlScore mc = none := by
  refine ⟨?_, ?_, ?_, ?_⟩
  · simp [normalizeEconomyScore, computeEconomyMetrics, ediv, hdur.ne', truthy]
  · simp [normalizeMapControlScore, computeMapControlMetrics, ediv, hdur.ne', truthy]
  · simp [normalizeEconomyScore, hm, truthy]
  · simp [normalizeMapControlScore, hmc, truthy]

/-- Witness for zero_rate_scores_null at concrete inputs. -/
theorem zero_rate_scores_null_instance :
    0 < (211/6 : ℚ) ∧
    (normalizeEconomyScore
        (computeEconomyMetrics 0 285 34585 (211/6) emptyChallenges) = none ∧
      normalizeMapControlScore
        (computeMapControlMetrics 0 (211/6) emptyChallenges) = none ∧
      normalizeEconomyScore
        (computeEconomyMetrics 0 285 34585 (211/6) emptyChallenges) = none ∧
      normalizeMapControlScore
        (computeMapControlMetrics 0 (211/6) emptyChallenges) = none) :=
  ⟨by norm_num,
    zero_rate_scores_null
      (computeEconomyMetrics 0 285 34585 (211/6) emptyChallenges)
      (computeMapControlMetrics 0 (211/6) emptyChallenges)
      285 34585 (211/6) emptyChallenges (by norm_num)
      (by norm_num [computeEconomyMetrics, ediv])
      (by norm_num [computeMapControlMetrics, ediv])⟩

/-! ## Claim C9: per-minute economy formulas and the scenario value -/

/-- C9 counterexample: with goldEarned 15653 and duration 2110 seconds
the code computes gold_per_minute = 93918/211 = 445.109..., which is not
445.07 to two decimals (the spec scenario value is off; the repository
test suite expects 445.11). -/
theorem gold_per_minute_scenario_value :
    (computeEconomyMetrics 15653 285 34585 (2110 / 60) emptyChallenges).gold_per_minute
      = some (.fin (93918 / 211)) ∧
    ¬ |(93918 / 211 : ℚ) - 44507 / 100| < 5 / 1000 := by
  constructor
  · norm_num [computeEconomyMetrics, ediv]
  · rw [abs_sub_lt_iff]
    norm_num

/-- C9 amended: the per-minute economy metrics are raw value divided by
(duration in seconds / 60); goldEarned 15653 with duration 2110 seconds
gives 93918/211, which is 445.11 to two decimals. -/
theorem per_minute_economy_formulas
    (goldEarned csTotal totalDamage durationSeconds : ℚ)
    (challenges : Challenges) (h : 0 < durationSeconds) :
    (computeEconomyMetrics goldEarned csTotal totalDamage
        (durationSeconds / 60) challenges).gold_per_minute
      = some (.fin (goldEarned / (durationSeconds / 60))) ∧
    (computeEconomyMetrics goldEarned csTotal totalDamage
        (durationSeconds / 60) challenges).cs_per_minute
      = some (.fin (csTotal / (durationSeconds / 60))) ∧
    (computeEconomyMetrics goldEarned csTotal totalDamage
        (durationSeconds / 60) challenges).damage_per_minute
      = some (.fin (totalDamage / (durationSeconds / 60))) ∧
    (computeEconomyMetrics 15653 285 34585 (2110 / 60) emptyChallenges).gold_per_minute
      = some (.fin (93918 / 211)) ∧
    |(93918 / 211 : ℚ) - 44511 / 100| < 5 / 1000 := by
  have hd : durationSeconds / 60 ≠ 0 := by positivity
  refine ⟨?_, ?_, ?_, ?_, ?_⟩
  · simp [computeEconomyMetrics, ediv, hd]
  · simp [computeEconomyMetrics, ediv, hd]
  · simp [computeEconomyMetrics, ediv, hd]
  · norm_num [computeEconomyMetrics, ediv]
  · rw [abs_sub_lt_iff]
    norm_num

/-- Witness for per_minute_economy_formulas at the spec scenario. -/
theorem per_minute_economy_formulas_instance :
    0 < (2110 : ℚ) ∧
    ((computeEconomyMetrics 15653 285 34585 (2110 / 60) emptyChallenges).gold_per_minute
        = some (.fin (15653 / (2110 / 60))) ∧
      (computeEconomyMetrics 15653 285 34585 (2110 / 60) emptyChallenges).cs_per_minute
        = some (.fin (285 / (2110 / 60))) ∧
      (computeEconomyMetrics 15653 285 34585 (2110 / 60) emptyChallenges).damage_per_minute
        = some (.fin (34585 / (2110 / 60))) ∧
      (computeEconomyMetrics 15653 285 34585 (2110 / 60) emptyChallenges).gold_per_minute
        = some (.fin (93918 / 211)) ∧
      |(93918 / 211 : ℚ) - 44511 / 100| < 5 / 1000) :=
  ⟨by norm_num,
    per_minute_economy_formulas 15653 285 34585 2110 emptyChallenges (by norm_num)⟩

/-! ## Claim C4: the engine does not throw, a zero duration gives
Infinity rather than null -/

/-- C4 counterexample: with duration 0 the gold-per-minute field is the
non-null value Infinity — the code neither throws nor nulls the
per-minute metrics on a non-positive duration. -/
theorem nonpositive_duration_gives_infinite_rate :
    (computeEconomyMetrics 15653 285 34585 0 emptyChallenges).gold_per_minute
      = some EJs.inf ∧
    (computeEconomyMetrics 15653 285 34585 0 emptyChallenges).gold_per_minute
      ≠ none := by
  constructor
  · norm_num [computeEconomyMetrics, ediv]
  · simp [computeEconomyMetrics, ediv]

/-- C4 amended: the Score Engine is a total function that never throws —
missing optional challenge data surfaces as null fields — and it
performs no duration or identifier validation: with duration 0 and
positive gold the per-minute rate becomes Infinity (non-null) instead of
an error or null. -/
theorem score_engine_null_propagation_no_throw
    (goldEarned csTotal totalDamage visionScore durationMinutes : ℚ)
    (hdur : durationMinutes = 0) (hgold : 0 < goldEarned) :
    (computeEconomyMetrics goldEarned csTotal totalDamage durationMinutes
        emptyChallenges).early_laning_gold_exp_advantage = none ∧
    (computeEconomyMetrics goldEarned csTotal totalDamage durationMinutes
        emptyChallenges).bounty_gold = none ∧
    (computeMapControlMetrics visionScore durationMinutes
        emptyChallenges).control_ward_uptime_percent = none ∧
    (computeMapControlMetrics visionScore durationMinutes
        emptyChallenges).stealth_wards_placed = none ∧
    (computeMapControlMetrics visionScore durationMinutes
        emptyChallenges).wards_cleared = none ∧
    (computeMapControlMetrics visionScore durationMinutes
        emptyChallenges).vision_advantage_vs_opponent = none ∧
    (computeEconomyMetrics goldEarned csTotal totalDamage durationMinutes
        emptyChallenges).gold_per_minute = some EJs.inf := by
  subst hdur
  refine ⟨rfl, rfl, rfl, rfl, rfl, rfl, ?_⟩
  simp [computeEconomyMetrics, ediv, hgold]

/-- Witness for score_engine_null_propagation_no_throw. -/
theorem score_engine_null_propagation_no_throw_instance :
    (0 : ℚ) = 0 ∧ 0 < (15653 : ℚ) ∧
    ((computeEconomyMetrics 15653 285 34585 0
        emptyChallenges).early_laning_gold_exp_advantage = none ∧
      (computeEconomyMetrics 15653 285 34585 0 emptyChallenges).bounty_gold = none ∧
      (computeMapControlMetrics 42 0 emptyChallenges).control_ward_uptime_percent = none ∧
      (computeMapControlMetrics 42 0 emptyChallenges).stealth_wards_placed = none ∧
      (computeMapControlMetrics 42 0 emptyChallenges).wards_cleared = none ∧
      (computeMapControlMetrics 42 0 emptyChallenges).vision_advantage_vs_opponent = none ∧
      (computeEconomyMetrics 15653 285 34585 0 emptyChallenges).gold_per_minute
        = some EJs.inf) :=
  ⟨rfl, by norm_num,
    score_engine_null_propagation_no_throw 15653 285 34585 42 0 rfl (by norm_num)⟩

/-! ## Claim C1: the dedup guard for already-computed matches -/

/-- C1 counterexample: a notification whose match already has computed
ParticipantAnalytics but whose queue id (400) is not ranked skips at the
category filter, so the dedup check is never invoked for it — the claim
must be restricted to ranked-queue notifications. -/
theorem nonranked_duplicate_skips_without_dedup_check :
    checkIfAnalyticsExist ["NA1_100"] "NA1_100" = true ∧
    ServiceCall.dedupCheck "NA1_100" ∉
      (processRecord ["NA1_100"] ⟨"msg1", ⟨"NA1_100", 400⟩⟩).1 ∧
    (processRecord ["NA1_100"] ⟨"msg1", ⟨"NA1_100", 400⟩⟩).2 = false := by
  refine ⟨rfl, ?_, rfl⟩
  decide

/-- C1 amended: for every ranked-queue notification whose match already
has computed ParticipantAnalytics, the handler invokes exactly the dedup
check — neither the Score Engine, the Timeline Extractor nor the
Analytics Writer, nor the Rolling Aggregator — and the record is not
reported as a batch item failure, so the delivery layer sees success. -/
theorem rankedDuplicate_skips_with_dedup_only
    (computedMatches : List String) (r : SQSRecord)
    (records : List SQSRecord)
    (hq : r.body.queueId ∈ RANKED_QUEUE_IDS)
    (hc : checkIfAnalyticsExist computedMatches r.body.matchId = true) :
    (processRecord computedMatches r).1 = [.dedupCheck r.body.matchId] ∧
    ServiceCall.participantAnalytics r.body.matchId ∉ (processRecord computedMatches r).1 ∧
    ServiceCall.timelineAnalytics r.body.matchId ∉ (processRecord computedMatches r).1 ∧
    ServiceCall.rollingAnalytics r.body.matchId ∉ (processRecord computedMatches r).1 ∧
    (processRecord computedMatches r).2 = false ∧
    (handler computedMatches records).2 = [] := by
  have hp : processRecord computedMatches r = ([.dedupCheck r.body.matchId], false) := by
    simp [processRecord, hq, hc]
  refine ⟨by rw [hp], by rw [hp]; simp, by rw [hp]; simp, by rw [hp]; simp, by rw [hp], ?_⟩
  have hstep : ∀ c : SQSRecord, (processRecord computedMatches c).2 = false := by
    intro c
    unfold processRecord
    split
    · split <;> rfl
    · rfl
  induction records using List.reverseRecOn with
  | nil => rfl
  | append_singleton xs x ih =>
      simp [handler, List.foldl_append, hstep x] at ih ⊢
      simpa [handler] using ih

/-- Witness for rankedDuplicate_skips_with_dedup_only. -/
theorem rankedDuplicate_skips_with_dedup_only_instance :
    (⟨"msg1", ⟨"NA1_100", 420⟩⟩ : SQSRecord).body.queueId ∈ RANKED_QUEUE_IDS ∧
    checkIfAnalyticsExist ["NA1_100"]
      (⟨"msg1", ⟨"NA1_100", 420⟩⟩ : SQSRecord).body.matchId = true ∧
    ((processRecord ["NA1_100"] ⟨"msg1", ⟨"NA1_100", 420⟩⟩).1
        = [.dedupCheck "NA1_100"] ∧
      ServiceCall.participantAnalytics "NA1_100" ∉
        (processRecord ["NA1_100"] ⟨"msg1", ⟨"NA1_100", 420⟩⟩).1 ∧
      ServiceCall.timelineAnalytics "NA1_100" ∉
        (processRecord ["NA1_100"] ⟨"msg1", ⟨"NA1_100", 420⟩⟩).1 ∧
      ServiceCall.rollingAnalytics "NA1_100" ∉
        (processRecord ["NA1_100"] ⟨"msg1", ⟨"NA1_100", 420⟩⟩).1 ∧
      (processRecord ["NA1_100"] ⟨"msg1", ⟨"NA1_100", 420⟩⟩).2 = false ∧
      (handler ["NA1_100"] [⟨"msg1", ⟨"NA1_100", 420⟩⟩]).2 = []) :=
  ⟨by decide, rfl,
    rankedDuplicate_skips_with_dedup_only ["NA1_100"]
      ⟨"msg1", ⟨"NA1_100", 420⟩⟩ [⟨"msg1", ⟨"NA1_100", 420⟩⟩]
      (by decide) rfl⟩

/-! ## Claim C3: the Timeline Extractor never fills dragon or baron -/

/-- C3: a match whose timeline contains an ELITE_MONSTER_KILL of a
DRAGON at 360000ms still gets null first-dragon (and first-baron)
fields: the code hard-codes them to null although the repository test
suite expects the first dragon and baron to be extracted. -/
theorem computeTimelineAnalytics_drops_first_dragon :
    earliest isDragonKill [dragonKillEvent] = some dragonKillEvent ∧
    dragonKillEvent.timestamp_ms = 360000 ∧
    (computeTimelineAnalytics [dragonKillEvent] [⟨3, 200⟩]).first_dragon_timestamp_ms
      = none ∧
    (computeTimelineAnalytics [dragonKillEvent] [⟨3, 200⟩]).first_dragon_team_id
      = none ∧
    (computeTimelineAnalytics [dragonKillEvent] [⟨3, 200⟩]).first_baron_timestamp_ms
      = none ∧
    (computeTimelineAnalytics [dragonKillEvent] [⟨3, 200⟩]).first_baron_team_id
      = none := by
  refine ⟨?_, rfl, rfl, rfl, rfl, rfl⟩
  decide

/-! ## Claim C7: the objective participation rate -/

/-- C7 counterexample: a participant with zero own takedowns on a team
with five recorded objectives gets a null participation rate, not 0 —
the code only queries the team total after finding at least one own
takedown. -/
theorem zero_takedowns_rate_is_null :
    0 < teamTotalObjectives [⟨100, some 2, some 1, some 2⟩] 100 ∧
    (computeObjectivesMetrics [] [⟨100, some 2, some 1, some 2⟩] 1 100
        emptyChallenges).objective_participation_rate = none ∧
    (none : JsVal) ≠ some (.fin 0) := by
  refine ⟨by decide, by decide, by simp⟩

/-- C7 amended: when the participant has at least one own baron, dragon
or tower takedown and the recorded team total is positive, the rate is
own-takedowns / team-total x 100; with zero own takedowns the rate is
null regardless of the team total (and an empty event list always gives
null). -/
theorem objective_participation_rate_cases
    (events : List TimelineEvent) (teams : List MatchTeam)
    (pid teamId : ℤ) (challenges : Challenges)
    (hOwn : 0 < countParticipation events isBaronKill pid +
      countParticipation events isDragonKill pid +
      countParticipation events isTowerKill pid)
    (hTeam : 0 < teamTotalObjectives teams teamId) :
    (computeObjectivesMetrics events teams pid teamId
        challenges).objective_participation_rate
      = some (.fin
          (((countParticipation events isBaronKill pid +
              countParticipation events isDragonKill pid +
              countParticipation events isTowerKill pid : ℕ) : ℚ) /
            ((teamTotalObjectives teams teamId : ℤ) : ℚ) * 100)) ∧
    (computeObjectivesMetrics [] teams pid teamId
        challenges).objective_participation_rate = none := by
  constructor
  · simp [computeObjectivesMetrics, hOwn, hTeam]
  · simp [computeObjectivesMetrics, countParticipation]

/-- Witness for objective_participation_rate_cases: one tower takedown
out of five team objectives is a 20 percent rate. -/
theorem objective_participation_rate_cases_instance :
    0 < countParticipation [⟨"BUILDING_KILL", none, some "TOWER_BUILDING", 100, 1, []⟩]
        isBaronKill 1 +
      countParticipation [⟨"BUILDING_KILL", none, some "TOWER_BUILDING", 100, 1, []⟩]
        isDragonKill 1 +
      countParticipation [⟨"BUILDING_KILL", none, some "TOWER_BUILDING", 100, 1, []⟩]
        isTowerKill 1 ∧
    0 < teamTotalObjectives [⟨100, some 2, some 1, some 2⟩] 100 ∧
    ((computeObjectivesMetrics
        [⟨"BUILDING_KILL", none, some "TOWER_BUILDING", 100, 1, []⟩]
        [⟨100, some 2, some 1, some 2⟩] 1 100
        emptyChallenges).objective_participation_rate
      = some (.fin
          (((countParticipation [⟨"BUILDING_KILL", none, some "TOWER_BUILDING", 100, 1, []⟩]
              isBaronKill 1 +
            countParticipation [⟨"BUILDING_KILL", none, some "TOWER_BUILDING", 100, 1, []⟩]
              isDragonKill 1 +
            countParticipation [⟨"BUILDING_KILL", none, some "TOWER_BUILDING", 100, 1, []⟩]
              isTowerKill 1 : ℕ) : ℚ) /
            ((teamTotalObjectives [⟨100, some 2, some 1, some 2⟩] 100 : ℤ) : ℚ) * 100)) ∧
    (computeObjectivesMetrics [] [⟨100, some 2, some 1, some 2⟩] 1 100
        emptyChallenges).objective_participation_rate = none) :=
  ⟨by decide, by decide,
    objective_participation_rate_cases
      [⟨"BUILDING_KILL", none, some "TOWER_BUILDING", 100, 1, []⟩]
      [⟨100, some 2, some 1, some 2⟩] 1 100 emptyChallenges
      (by decide) (by decide)⟩

/-! ## Claim C5: the overall score is the rounded renormalized weighted
average -/

theorem computeOverallScore_eq_claim (e o m r : Option ℚ) :
    computeOverallScore ⟨liftQ e, liftQ o, liftQ m, liftQ r⟩ =
      (claimWeightedOverall e o m r).map (fun q => .fin (qround1 q)) := by
  rcases e with _ | e <;> rcases o with _ | o <;> rcases m with _ | m <;>
    rcases r with _ | r <;>
    · simp only [computeOverallScore, claimWeightedOverall, liftQ, qround1,
        roundTo1, eround, emul, eadd, ediv, Option.map, List.append_nil,
        List.nil_append, List.cons_append, List.isEmpty, List.foldl, List.map,
        List.sum_cons, List.sum_nil]
      norm_num
      try ring_nf

/-- C5 counterexample: with economy 0.1, objectives 0 and the other two
categories null, the stored overall is 0.1 while the renormalized
weighted average is 3/55 = 0.0545... — the code rounds to one decimal,
so the overall does not equal the weighted average. -/
theorem computeOverallScore_rounds_weighted_average :
    computeOverallScore
      ⟨some (.fin (1/10)), some (.fin 0), none, none⟩ = some (.fin (1/10)) ∧
    claimWeightedOverall (some (1/10)) (some 0) none none = some (3/55) ∧
    (1/10 : ℚ) ≠ 3/55 := by
  refine ⟨?_, ?_, by norm_num⟩
  · norm_num [computeOverallScore, roundTo1, eround, emul, ediv, eadd]
  · norm_num [claimWeightedOverall]

/-- C5 amended: the overall score equals the weighted average with
weights 0.30, 0.25, 0.20, 0.25, null categories excluded and the
remaining weights renormalized, rounded to one decimal by
Math.round(x*10)/10; it is null exactly when all four categories are
null. -/
theorem computeOverallScore_refines_rounded_weighted_average
    (e o m r : Option ℚ) :
    computeOverallScore ⟨liftQ e, liftQ o, liftQ m, liftQ r⟩ =
      (claimWeightedOverall e o m r).map (fun q => .fin (qround1 q)) ∧
    (computeOverallScore ⟨liftQ e, liftQ o, liftQ m, liftQ r⟩ = none ↔
      e = none ∧ o = none ∧ m = none ∧ r = none) := by
  refine ⟨computeOverallScore_eq_claim e o m r, ?_⟩
  rw [computeOverallScore_eq_claim e o m r]
  rcases e with _ | e <;> rcases o with _ | o <;> rcases m with _ | m <;>
    rcases r with _ | r <;> simp [claimWeightedOverall]

/-! ## The rolling statements: the selection query validates, the
averages query never does -/

theorem matchIds_query_valid (qf cf : Option ℤ) (pf : Option String) :
    validateStatement (matchIdsQueryFor qf cf pf) = none := by
  unfold validateStatement matchIdsQueryFor whereRefsFor
  by_cases h1 : filterActiveInt qf <;> by_cases h2 : filterActiveInt cf <;>
    by_cases h3 : filterActiveStr pf <;>
    simp [h1, h2, h3, List.find?]

theorem avg_query_never_validates (qf cf : Option ℤ) (pf : Option String) :
    validateStatement (avgQueryFor qf cf pf) =
      some (if filterActiveInt qf then SqlError.missingFromEntry "m"
        else SqlError.ungroupedColumn "mp" "match_id") := by
  unfold validateStatement avgQueryFor whereRefsFor
  by_cases h1 : filterActiveInt qf <;> by_cases h2 : filterActiveInt cf <;>
    by_cases h3 : filterActiveStr pf <;>
    simp [h1, h2, h3, List.find?]

theorem computeRollingAnalytics_never_stores (rows : List PlayerMatchRow)
    (pid : String) (N : ℕ) (qf cf : Option ℤ) (pf : Option String)
    (d : RollingAnalyticsData) :
    computeRollingAnalytics rows pid N qf cf pf ≠ .ok (some d) := by
  unfold computeRollingAnalytics
  rw [matchIds_query_valid, avg_query_never_validates]
  split
  · simp
  · split
    · dsimp only
      split <;> simp
    · rename_i heq
      simp at heq

/-! ## Claim C8: trend classification exists in SQL but is never stored -/

/-- C8 counterexample: a two-match history whose halves differ by 20
points would have to be stored as improving per the claim, yet the
Rolling Aggregator throws at its malformed averages statement (ungrouped
ORDER BY mp.match_id in an aggregate SELECT) before any RollingAnalytics
row — trends included — can be built or stored. -/
theorem rolling_trends_never_stored :
    calculate_trend 50 70 5 = "improving" ∧
    computeRollingAnalytics trendDemoRows "p" 2 none none none
      = .error (SqlError.ungroupedColumn "mp" "match_id") := by
  constructor
  · norm_num [calculate_trend]
  · rfl

/-- C8 amended: the SQL function calculate_trend classifies improving
when the newer-half mean exceeds the older-half mean by strictly more
than the threshold, declining in the mirrored case, stable otherwise
(delta equal to the threshold is stable; 70 versus 75 is stable at
threshold 5 and 70 versus 75.01 is improving) — but the TypeScript
Rolling Aggregator never stores that classification: its trend fields
are hard-coded null in a construction that is itself unreachable,
because every invocation that finds at least one qualifying match throws
at the invalid averages statement, so no RollingAnalytics row is ever
written. -/
theorem calculate_trend_classification_and_never_stored
    (f s t : ℚ) (rows : List PlayerMatchRow) (pid : String) (N : ℕ)
    (qf cf : Option ℤ) (pf : Option String) :
    (calculate_trend f s t = "improving" ↔ t < s - f) ∧
    (calculate_trend f s t = "declining" ↔ t < f - s ∧ ¬ t < s - f) ∧
    (calculate_trend f s t = "stable" ↔ ¬ t < s - f ∧ ¬ t < f - s) ∧
    calculate_trend 70 75 5 = "stable" ∧
    calculate_trend 70 (7501/100) 5 = "improving" ∧
    (∀ d : RollingAnalyticsData,
      computeRollingAnalytics rows pid N qf cf pf ≠ .ok (some d)) := by
  refine ⟨?_, ?_, ?_, by norm_num [calculate_trend],
    by norm_num [calculate_trend],
    fun d => computeRollingAnalytics_never_stores rows pid N qf cf pf d⟩
  · unfold calculate_trend
    split_ifs with h1 h2 <;> simp_all
  · unfold calculate_trend
    split_ifs with h1 h2 <;> simp_all
  · unfold calculate_trend
    split_ifs with h1 h2 <;> simp_all

/-! ## Claim C2: the rolling window -/

/-- C2: the selection query does order the player's qualifying matches
by start time descending and would take the window ("m2" first for the
two cexRow matches), but the aggregator stores no averages at all: for
every invocation the averages statement is rejected by PostgreSQL — with
no queue filter because of the ungrouped ORDER BY mp.match_id in an
aggregate SELECT, and with the queue filter the handler always passes
(420 or 440) already because its WHERE clause references m.queue_id
while the FROM clause joins only mpa and mp.  computeRollingAnalytics
therefore throws instead of storing window averages. -/
theorem computeRollingAnalytics_throws_at_averages_query :
    (selectedRows [cexRowOld, cexRowNew] 1 none none none).map
      (fun r => r.match_id) = ["m2"] ∧
    validateStatement (avgQueryFor none none none)
      = some (SqlError.ungroupedColumn "mp" "match_id") ∧
    validateStatement (avgQueryFor (some 420) none none)
      = some (SqlError.missingFromEntry "m") ∧
    computeRollingAnalytics [cexRowOld, cexRowNew] "p" 1 none none none
      = .error (SqlError.ungroupedColumn "mp" "match_id") ∧
    computeRollingAnalytics [cexRowOld, cexRowNew] "p" 20 (some 420) none none
      = .error (SqlError.missingFromEntry "m") := by
  refine ⟨?_, ?_, ?_, ?_, ?_⟩
  · norm_num [selectedRows, cexRowOld, cexRowNew, rowQualifies,
      filterActiveInt, filterActiveStr, sortByStartDesc, insertByStartDesc,
      List.filter]
  · decide
  · decide
  · rfl
  · rfl

/-! ## Claim C6: the 0..100 range invariant -/

theorem clamp01_of_ne_nan (x : EJs) (hx : x ≠ EJs.nan) :
    ∃ q : ℚ, emin (.fin 100) (emax (.fin 0) x) = .fin q ∧ 0 ≤ q ∧ q ≤ 100 := by
  cases x with
  | fin a =>
      by_cases h0 : (0 : ℚ) ≤ a
      · by_cases h100 : (100 : ℚ) ≤ a
        · exact ⟨100, by norm_num [emin, emax, ele, h0, h100], by norm_num, le_refl _⟩
        · exact ⟨a, by norm_num [emin, emax, ele, h0, h100], h0, le_of_not_le h100⟩
      · exact ⟨0, by norm_num [emin, emax, ele, h0], le_refl _, by norm_num⟩
  | inf => exact ⟨100, by norm_num [emin, emax, ele], by norm_num, le_refl _⟩
  | ninf => exact ⟨0, by norm_num [emin, emax, ele], le_refl _, by norm_num⟩
  | nan => exact absurd rfl hx

theorem roundTo1_fin_bounds (q : ℚ) (h0 : 0 ≤ q) (h1 : q ≤ 100) :
    ∃ s : ℚ, roundTo1 (.fin q) = .fin s ∧ 0 ≤ s ∧ s ≤ 100 := by
  refine ⟨((⌊q * 10 + 1/2⌋ : ℤ) : ℚ) / 10, ?_, ?_, ?_⟩
  · simp [roundTo1, eround, emul, ediv]
  · have hz : (0 : ℤ) ≤ ⌊q * 10 + 1/2⌋ := Int.floor_nonneg.mpr (by linarith)
    have : (0 : ℚ) ≤ ((⌊q * 10 + 1/2⌋ : ℤ) : ℚ) := by exact_mod_cast hz
    linarith
  · have hz : ⌊q * 10 + 1/2⌋ ≤ ⌊(2001/2 : ℚ)⌋ := Int.floor_le_floor (by linarith)
    have hz2 : (⌊(2001/2 : ℚ)⌋ : ℤ) = 1000 := by norm_num
    have : ((⌊q * 10 + 1/2⌋ : ℤ) : ℚ) ≤ 1000 := by exact_mod_cast hz2 ▸ hz
    linarith

theorem clampRound_in_range (x : EJs) (hx : x ≠ EJs.nan) :
    scoreInRange (some (roundTo1 (emin (.fin 100) (emax (.fin 0) x)))) := by
  obtain ⟨c, hc, hc0, hc1⟩ := clamp01_of_ne_nan x hx
  obtain ⟨s, hs, hs0, hs1⟩ := roundTo1_fin_bounds c hc0 hc1
  exact Or.inr ⟨s, by rw [hc, hs], hs0, hs1⟩

theorem econArg_ne_nan (x : EJs) (hx : x ≠ EJs.nan) :
    emul (ediv (esub x (.fin 300)) (.fin 300)) (.fin 100) ≠ EJs.nan := by
  cases x with
  | fin a => norm_num [esub, eadd, eneg, ediv, emul] <;> simp
  | inf => norm_num [esub, eadd, eneg, ediv, emul] <;> simp
  | ninf => norm_num [esub, eadd, eneg, ediv, emul] <;> simp
  | nan => exact absurd rfl hx

theorem mapArg_ne_nan (x : EJs) (hx : x ≠ EJs.nan) :
    emul (ediv x (.fin 2)) (.fin 100) ≠ EJs.nan := by
  cases x with
  | fin a => norm_num [ediv, emul] <;> simp
  | inf => norm_num [ediv, emul] <;> simp
  | ninf => norm_num [ediv, emul] <;> simp
  | nan => exact absurd rfl hx

theorem errorArg_ne_nan (x : EJs) (hx : x ≠ EJs.nan) :
    emul (esub (.fin 1) (ediv x (.fin (3/10)))) (.fin 100) ≠ EJs.nan := by
  cases x with
  | fin a => norm_num [esub, eadd, eneg, ediv, emul] <;> simp
  | inf => norm_num [esub, eadd, eneg, ediv, emul] <;> simp
  | ninf => norm_num [esub, eadd, eneg, ediv, emul] <;> simp
  | nan => exact absurd rfl hx

theorem roundTo1_fin (q : ℚ) : roundTo1 (.fin q) = .fin (qround1 q) := by
  simp [roundTo1, qround1, eround, emul, ediv]

theorem qround1_bounds (q : ℚ) (h0 : 0 ≤ q) (h1 : q ≤ 100) :
    0 ≤ qround1 q ∧ qround1 q ≤ 100 := by
  constructor
  · have hz : (0 : ℤ) ≤ ⌊q * 10 + 1/2⌋ := Int.floor_nonneg.mpr (by linarith)
    have : (0 : ℚ) ≤ ((⌊q * 10 + 1/2⌋ : ℤ) : ℚ) := by exact_mod_cast hz
    unfold qround1
    linarith
  · have hz : ⌊q * 10 + 1/2⌋ ≤ ⌊(2001/2 : ℚ)⌋ := Int.floor_le_floor (by linarith)
    have hz2 : (⌊(2001/2 : ℚ)⌋ : ℤ) = 1000 := by norm_num
    have : ((⌊q * 10 + 1/2⌋ : ℤ) : ℚ) ≤ 1000 := by exact_mod_cast hz2 ▸ hz
    unfold qround1
    linarith

theorem wavg_range (l : List (ℚ × ℚ)) (hl : l ≠ [])
    (hs : ∀ p ∈ l, 0 ≤ p.1 ∧ p.1 ≤ 100) (hw : ∀ p ∈ l, 0 < p.2) :
    0 ≤ (l.map (fun p => p.1 * p.2)).sum / (l.map Prod.snd).sum ∧
    (l.map (fun p => p.1 * p.2)).sum / (l.map Prod.snd).sum ≤ 100 := by
  have hden : 0 < (l.map Prod.snd).sum := by
    refine List.sum_pos _ ?_ ?_
    · intro x hx
      obtain ⟨p, hp, rfl⟩ := List.mem_map.mp hx
      exact hw p hp
    · simpa using hl
  have hnum0 : 0 ≤ (l.map (fun p => p.1 * p.2)).sum := by
    refine List.sum_nonneg ?_
    intro x hx
    obtain ⟨p, hp, rfl⟩ := List.mem_map.mp hx
    exact mul_nonneg (hs p hp).1 (le_of_lt (hw p hp))
  have hnum100 : (l.map (fun p => p.1 * p.2)).sum ≤ 100 * (l.map Prod.snd).sum := by
    rw [← List.sum_map_mul_left]
    refine List.sum_le_sum ?_
    intro p hp
    exact mul_le_mul_of_nonneg_right (hs p hp).2 (le_of_lt (hw p hp))
  exact ⟨div_nonneg hnum0 (le_of_lt hden), (div_le_iff hden).mpr (by linarith)⟩

theorem claimWeightedOverall_range (e o m r : Option ℚ)
    (he : ∀ q, e = some q → 0 ≤ q ∧ q ≤ 100)
    (ho : ∀ q, o = some q → 0 ≤ q ∧ q ≤ 100)
    (hm : ∀ q, m = some q → 0 ≤ q ∧ q ≤ 100)
    (hr : ∀ q, r = some q → 0 ≤ q ∧ q ≤ 100) :
    claimWeightedOverall e o m r = none ∨
      ∃ q : ℚ, claimWeightedOverall e o m r = some q ∧ 0 ≤ q ∧ q ≤ 100 := by
  have hall : ∀ p ∈ (((match e with | some s => [(s, (3/10 : ℚ))] | none => []) ++
      (match o with | some s => [(s, (1/4 : ℚ))] | none => [])) ++
      (match m with | some s => [(s, (1/5 : ℚ))] | none => [])) ++
      (match r with | some s => [(s, (1/4 : ℚ))] | none => []),
      (0 ≤ p.1 ∧ p.1 ≤ 100) ∧ 0 < p.2 := by
    intro p hp
    simp only [List.mem_append] at hp
    rcases hp with ((hp | hp) | hp) | hp
    · rcases e with _ | a
      · simp at hp
      · simp at hp
        rw [hp]
        exact ⟨he a rfl, by norm_num⟩
    · rcases o with _ | a
      · simp at hp
      · simp at hp
        rw [hp]
        exact ⟨ho a rfl, by norm_num⟩
    · rcases m with _ | a
      · simp at hp
      · simp at hp
        rw [hp]
        exact ⟨hm a rfl, by norm_num⟩
    · rcases r with _ | a
      · simp at hp
      · simp at hp
        rw [hp]
        exact ⟨hr a rfl, by norm_num⟩
  simp only [claimWeightedOverall]
  split
  · exact Or.inl rfl
  · rename_i hne
    right
    refine ⟨_, rfl, ?_⟩
    refine wavg_range _ ?_ (fun p hp => (hall p hp).1) (fun p hp => (hall p hp).2)
    intro hcon
    rw [hcon] at hne
    simp at hne

theorem normalizeEconomyScore_range (m : EconomyMetrics) :
    scoreInRange (normalizeEconomyScore m) := by
  by_cases htr : truthy m.gold_per_minute
  · rcases hm : m.gold_per_minute with _ | x
    · rw [hm] at htr
      simp [truthy] at htr
    · have hx : x ≠ EJs.nan := by
        intro hcon
        rw [hm, hcon] at htr
        simp [truthy] at htr
      rw [hm] at htr
      have heq : normalizeEconomyScore m =
          some (roundTo1 (emin (.fin 100) (emax (.fin 0)
            (emul (ediv (esub x (.fin 300)) (.fin 300)) (.fin 100))))) := by
        simp [normalizeEconomyScore, htr, hm, toE]
      rw [heq]
      exact clampRound_in_range _ (econArg_ne_nan x hx)
  · left
    simp [normalizeEconomyScore, htr]

theorem normalizeMapControlScore_range (m : MapControlMetrics) :
    scoreInRange (normalizeMapControlScore m) := by
  by_cases htr : truthy m.vision_score_per_minute
  · rcases hm : m.vision_score_per_minute with _ | x
    · rw [hm] at htr
      simp [truthy] at htr
    · have hx : x ≠ EJs.nan := by
        intro hcon
        rw [hm, hcon] at htr
        simp [truthy] at htr
      rw [hm] at htr
      have heq : normalizeMapControlScore m =
          some (roundTo1 (emin (.fin 100) (emax (.fin 0)
            (emul (ediv x (.fin 2)) (.fin 100))))) := by
        simp [normalizeMapControlScore, htr, hm, toE]
      rw [heq]
      exact clampRound_in_range _ (mapArg_ne_nan x hx)
  · left
    simp [normalizeMapControlScore, htr]

theorem normalizeErrorScore_range (m : ErrorMetrics)
    (h : m.deaths_per_minute ≠ some EJs.nan) :
    scoreInRange (normalizeErrorScore m) := by
  rcases hm : m.deaths_per_minute with _ | x
  · left
    simp [normalizeErrorScore, hm]
  · have hx : x ≠ EJs.nan := by
      intro hcon
      rw [hcon] at hm
      exact h hm
    have heq : normalizeErrorScore m =
        some (roundTo1 (emin (.fin 100) (emax (.fin 0)
          (emul (esub (.fin 1) (ediv x (.fin (3/10)))) (.fin 100))))) := by
      simp [normalizeErrorScore, hm]
    rw [heq]
    exact clampRound_in_range _ (errorArg_ne_nan x hx)

theorem normalizeObjectivesScore_range (m : ObjectivesMetrics)
    (h : m.objective_participation_rate = none ∨
      ∃ q : ℚ, m.objective_participation_rate = some (.fin q) ∧ 0 ≤ q ∧ q ≤ 100) :
    scoreInRange (normalizeObjectivesScore m) := by
  rcases h with h | ⟨q, hq, h0, h1⟩
  · left
    simp [normalizeObjectivesScore, h]
  · have heq : normalizeObjectivesScore m = some (roundTo1 (.fin q)) := by
      simp [normalizeObjectivesScore, hq]
    rw [heq, roundTo1_fin]
    obtain ⟨hb0, hb1⟩ := qround1_bounds q h0 h1
    exact Or.inr ⟨qround1 q, rfl, hb0, hb1⟩

/-- C6 counterexample: three tower takedowns against a recorded team
total of one objective give a participation rate of 300, and the
objectives normalizer applies no clamp, so the stored objectives score
is 300, outside 0..100 and not null. -/
theorem objectives_score_exceeds_100 :
    normalizeObjectivesScore (computeObjectivesMetrics threeTowerKills
      [⟨100, none, none, some 1⟩] 1 100 emptyChallenges) = some (.fin 300) ∧
    ¬ ((300 : ℚ) ≤ 100) ∧ (some (.fin 300) : JsVal) ≠ none := by
  refine ⟨?_, by norm_num, by simp⟩
  norm_num [normalizeObjectivesScore, computeObjectivesMetrics, countParticipation,
    teamTotalObjectives, threeTowerKills, isBaronKill, isDragonKill, isTowerKill,
    roundTo1, eround, emul, ediv, List.filter, List.find?]

/-- C6 amended: the economy and map-control scores are always null or in
0..100 (their guards drop NaN); the error score is null or in 0..100
whenever deaths-per-minute is not NaN; the objectives score, which is
unclamped, is null or in 0..100 whenever the participation rate is null
or itself within 0..100; and the overall score is null or in 0..100
whenever every present category score is within 0..100. -/
theorem composite_scores_range_under_consistent_inputs
    (em : EconomyMetrics) (mm : MapControlMetrics) (er : ErrorMetrics)
    (om : ObjectivesMetrics) (e o m r : Option ℚ)
    (hdpm : er.deaths_per_minute ≠ some EJs.nan)
    (hrate : om.objective_participation_rate = none ∨
      ∃ q : ℚ, om.objective_participation_rate = some (.fin q) ∧ 0 ≤ q ∧ q ≤ 100)
    (he : ∀ q, e = some q → 0 ≤ q ∧ q ≤ 100)
    (ho : ∀ q, o = some q → 0 ≤ q ∧ q ≤ 100)
    (hm : ∀ q, m = some q → 0 ≤ q ∧ q ≤ 100)
    (hr : ∀ q, r = some q → 0 ≤ q ∧ q ≤ 100) :
    scoreInRange (normalizeEconomyScore em) ∧
    scoreInRange (normalizeMapControlScore mm) ∧
    scoreInRange (normalizeErrorScore er) ∧
    scoreInRange (normalizeObjectivesScore om) ∧
    scoreInRange (computeOverallScore ⟨liftQ e, liftQ o, liftQ m, liftQ r⟩) := by
  refine ⟨normalizeEconomyScore_range em, normalizeMapControlScore_range mm,
    normalizeErrorScore_range er hdpm, normalizeObjectivesScore_range om hrate, ?_⟩
  rw [computeOverallScore_eq_claim]
  rcases claimWeightedOverall_range e o m r he ho hm hr with hnone | ⟨q, hq, h0, h1⟩
  · left
    rw [hnone]
    rfl
  · right
    obtain ⟨hb0, hb1⟩ := qround1_bounds q h0 h1
    exact ⟨qround1 q, by rw [hq]; rfl, hb0, hb1⟩

/-- Witness for composite_scores_range_under_consistent_inputs. -/
theorem composite_scores_range_under_consistent_inputs_instance :
    (computeErrorMetrics 20 8 3 12 (211/6)).deaths_per_minute ≠ some EJs.nan ∧
    ((computeObjectivesMetrics [] [] 1 100
        emptyChallenges).objective_participation_rate = none ∨
      ∃ q : ℚ, (computeObjectivesMetrics [] [] 1 100
        emptyChallenges).objective_participation_rate = some (.fin q) ∧
        0 ≤ q ∧ q ≤ 100) ∧
    (∀ q : ℚ, (some 50 : Option ℚ) = some q → 0 ≤ q ∧ q ≤ 100) ∧
    (∀ q : ℚ, (some 60 : Option ℚ) = some q → 0 ≤ q ∧ q ≤ 100) ∧
    (∀ q : ℚ, (none : Option ℚ) = some q → 0 ≤ q ∧ q ≤ 100) ∧
    (∀ q : ℚ, (some 100 : Option ℚ) = some q → 0 ≤ q ∧ q ≤ 100) ∧
    (scoreInRange (normalizeEconomyScore
        (computeEconomyMetrics 15653 285 34585 (211/6) emptyChallenges)) ∧
      scoreInRange (normalizeMapControlScore
        (computeMapControlMetrics 42 (211/6) emptyChallenges)) ∧
      scoreInRange (normalizeErrorScore (computeErrorMetrics 20 8 3 12 (211/6))) ∧
      scoreInRange (normalizeObjectivesScore
        (computeObjectivesMetrics [] [] 1 100 emptyChallenges)) ∧
      scoreInRange (computeOverallScore
        ⟨liftQ (some 50), liftQ (some 60), liftQ none, liftQ (some 100)⟩)) :=
  ⟨by norm_num [computeErrorMetrics, ediv] <;> simp,
    Or.inl (by decide),
    by intro q h; simp at h; subst h; norm_num,
    by intro q h; simp at h; subst h; norm_num,
    by intro q h; simp at h,
    by intro q h; simp at h; subst h; norm_num,
    composite_scores_range_under_consistent_inputs
      (computeEconomyMetrics 15653 285 34585 (211/6) emptyChallenges)
      (computeMapControlMetrics 42 (211/6) emptyChallenges)
      (computeErrorMetrics 20 8 3 12 (211/6))
      (computeObjectivesMetrics [] [] 1 100 emptyChallenges)
      (some 50) (some 60) none (some 100)
      (by norm_num [computeErrorMetrics, ediv] <;> simp)
      (Or.inl (by decide))
      (by intro q h; simp at h; subst h; norm_num)
      (by intro q h; simp at h; subst h; norm_num)
      (by intro q h; simp at h)
      (by intro q h; simp at h; subst h; norm_num)⟩
